import Mathlib

/-!
Shallow embedding of the DocuGen MCP server (`docugen_mcp_server.py`).

The server is a thin adapter exposing Google Sheets operations as MCP tool
actions.  Each action resolves a target spreadsheet id (explicit argument or
the client's mutable `current_spreadsheet_id` slot), optionally resolves a
sheet name to a numeric sheet id via one metadata read, builds one batch
request, submits it, and reshapes the response.

The embedding models the remote API as an environment of response
functions and records every network call an action issues in an explicit
trace, so that claims about "zero network calls" and "no mutating call"
become statements about that trace.  Fallible Python code (raised
exceptions) is modelled with `Except`.  Cell values, which the server never
inspects, are modelled as strings.
-/

namespace Docugen

/-- Python truthiness of an optional string argument: `None` and the empty
string are falsy (`spreadsheet_id or client.current_spreadsheet_id` and the
following `if not spreadsheet_id:` both use this). -/
def truthy : Option String → Bool
  | none => false
  | some s => !(s = "")

/-- Python `or` on optional string arguments, with Python truthiness. -/
def pyOr (a b : Option String) : Option String :=
  if truthy a then a else b

/-- A single-quote character as a string, used in the sheet-not-found
message. -/
def sq : String := String.singleton (Char.ofNat 39)

/-- The local precondition error message raised when no document id is
available (identical at every dispatcher action). -/
def noSpreadsheetMsg : String :=
  "No spreadsheet_id provided and no current spreadsheet set"

/-- The local error message raised when a sheet name is not found; reads
`Sheet <quote><name><quote> not found`. -/
def sheetNotFoundMsg (name : String) : String :=
  "Sheet " ++ sq ++ name ++ sq ++ " not found"

/-- The configuration error message raised inside `authenticate` when the
`GOOGLE_OAUTH_PATH` environment variable is unset. -/
def oauthPathMsg : String :=
  "GOOGLE_OAUTH_PATH environment variable not set"

/-- A remote-service failure raised by `execute()` (`HttpError`): an HTTP
status and a message. -/
structure HttpErr where
  status : Nat
  message : String
  deriving Repr, DecidableEq

/-- An error escaping an action: either a locally generated `ValueError`
or a remote `HttpError` propagated from the API layer. -/
inductive PyErr where
  | valueError (msg : String)
  | httpError (e : HttpErr)
  deriving Repr, DecidableEq

/-- Properties of one sheet in the spreadsheet metadata
(`sheet['properties']`): its title and its numeric sheet id. -/
structure SheetProps where
  title : String
  sheetId : Int
  deriving Repr, DecidableEq

/-- A bounded rectangular extent in a batch request
(`startRowIndex` / `endRowIndex` / `startColumnIndex` / `endColumnIndex`). -/
structure GridRange where
  sheetId : Int
  startRowIndex : Int
  endRowIndex : Int
  startColumnIndex : Int
  endColumnIndex : Int
  deriving Repr, DecidableEq

/-- An RGB colour as parsed from a hex string (the integer component
values `int(h[0:2],16)` etc.; the source divides each component by 255
when placing it on the wire, a fixed bijection on 0..255 left implicit
here). -/
structure Color where
  red : Nat
  green : Nat
  blue : Nat
  deriving Repr, DecidableEq

/-- The `textFormat` sub-dictionary built by `format_cells`. -/
structure TextFormatDict where
  bold : Option Bool := none
  italic : Option Bool := none
  fontSize : Option Int := none
  foregroundColor : Option Color := none
  deriving Repr, DecidableEq

/-- The `cell_format` dictionary built by `format_cells`. -/
structure CellFormatDict where
  textFormat : Option TextFormatDict := none
  backgroundColor : Option Color := none
  horizontalAlignment : Option String := none
  verticalAlignment : Option String := none
  deriving Repr, DecidableEq

/-- The border descriptor built by `borders_update` (style, width, colour;
the source applies the same descriptor to all six border positions). -/
structure BorderDict where
  style : String
  width : Int
  color : Color
  deriving Repr, DecidableEq

/-- One request descriptor inside a `batchUpdate` body.  Constructors carry
the payload fields the Python source sets. -/
inductive Request where
  | addSheet (title : String) (gridRowCount gridColumnCount : Option Int)
  | deleteSheet (sheetId : Int)
  | duplicateSheet (sourceSheetId : Int) (newSheetName : String)
  | repeatCellFormat (range : GridRange) (cellFormat : CellFormatDict)
  | repeatCellTextRotation (range : GridRange) (angle : Int)
  | repeatCellWrapStrategy (range : GridRange) (wrapStrategy : String)
  | setBasicFilter (range : GridRange)
  | addConditionalFormatRule (ranges : List GridRange) (ruleType : String)
      (values : List String) (index : Int)
  | setDataValidation (range : GridRange) (condType : String)
      (condValues : List String) (showCustomUi strict : Bool)
  | addNamedRange (name : String) (range : GridRange)
  | mergeCells (range : GridRange) (mergeType : String)
  | updateBorders (range : GridRange) (border : BorderDict)
  | findReplace (find replacement : String) (matchCase matchEntireCell : Bool)
      (searchByRegex includeFormulas : Bool) (sheetId : Option Int)
  | insertDimension (sheetId : Int) (dimension : String)
      (startIndex endIndex : Int) (inheritFromBefore : Bool)
  | updateDimensionProperties (sheetId : Int) (dimension : String)
      (startIndex endIndex : Int) (hiddenByUser : Option Bool)
      (pixelSize : Option Int)
  | updateSheetProperties (sheetId : Int) (fields : String)
      (title : Option String) (hidden : Option Bool) (index : Option Int)
      (frozenRowCount frozenColumnCount : Option Int)
  | addDimensionGroup (sheetId : Int) (dimension : String)
      (startIndex endIndex : Int)
  deriving Repr, DecidableEq

/-- One network call issued by an action, as recorded in the trace. -/
inductive NetCall where
  | spreadsheetsGet (spreadsheetId : String)
  | spreadsheetsCreate (title : String) (sheets : List String)
  | batchUpdate (spreadsheetId : String) (requests : List Request)
  | valuesGet (spreadsheetId range valueRenderOption : String)
  | valuesUpdate (spreadsheetId range valueInputOption : String)
  | valuesAppend (spreadsheetId range insertDataOption : String)
  | valuesClear (spreadsheetId range : String)
  deriving Repr, DecidableEq

/-- Whether a network call can mutate remote state.  Metadata and value
reads are read-only; everything else mutates. -/
def NetCall.isMutating : NetCall → Bool
  | .spreadsheetsGet _ => false
  | .valuesGet _ _ _ => false
  | _ => true

/-- Response to a `spreadsheets().create` call, restricted to the fields
the source selects (`spreadsheetId,spreadsheetUrl,sheets`). -/
structure CreateResp where
  spreadsheetId : String
  spreadsheetUrl : Option String
  deriving Repr, DecidableEq

/-- Response to a `values().update` call, restricted to the fields the
source reads. -/
structure UpdateResp where
  updatedCells : Int
  updatedRows : Int
  updatedColumns : Int
  updatedRange : Option String
  deriving Repr, DecidableEq

/-- Response to a `values().append` call (the `updates` sub-object). -/
structure AppendResp where
  updatedCells : Int
  updatedRows : Int
  updatedRange : Option String
  deriving Repr, DecidableEq

/-- A reply inside a `batchUpdate` response, restricted to the reply kinds
the source inspects. -/
inductive Reply where
  | addSheet (sheetId : Int) (title : String)
  | duplicateSheet (sheetId : Int) (title : String)
  | findReplace (occurrencesChanged : Int)
  | addNamedRange (namedRangeId : String)
  | empty
  deriving Repr, DecidableEq

/-- The remote spreadsheet service, modelled as response functions.  Each
field gives the outcome the remote end produces for one call shape; an
`Except.error` models an `HttpError` raised by `execute()`. -/
structure Env where
  getSpreadsheet : String → Except HttpErr (List SheetProps)
  createSpreadsheet : String → List String → Except HttpErr CreateResp
  batchUpdate : String → List Request → Except HttpErr (List Reply)
  valuesGet : String → String → String → Except HttpErr (Option (List (List String)))
  valuesUpdate : String → String → String → List (List String) →
      Except HttpErr UpdateResp
  valuesAppend : String → String → String → List (List String) →
      Except HttpErr AppendResp
  valuesClear : String → String → Except HttpErr (Option String)

/-- The mutable per-process client state: the current-document slot
(`GoogleSheetsClient.current_spreadsheet_id`, initialised to `None`). -/
structure Client where
  current_spreadsheet_id : Option String
  deriving Repr, DecidableEq

/-- The outcome of one action: its returned value or raised error, the
network calls it issued (in order), and the client state after it. -/
structure ActionResult (α : Type) where
  result : Except PyErr α
  calls : List NetCall
  client : Client

/-- The case-sensitive exact-match linear scan over
`spreadsheet.get('sheets', [])` performed by `get_sheet_id_by_name`. -/
def findSheetId : List SheetProps → String → Option Int
  | [], _ => none
  | s :: rest, name =>
    if s.title = name then some s.sheetId else findSheetId rest name

/-- Embedding of `GoogleSheetsClient.get_sheet_id_by_name`: one metadata
read, then a case-sensitive exact-match linear scan of the sheet titles;
an `HttpError` from the read is caught, logged and turned into `None`.
Returns the optional sheet id together with the single network call
made. -/
def get_sheet_id_by_name (env : Env) (spreadsheet_id sheet_name : String) :
    Option Int × List NetCall :=
  match env.getSpreadsheet spreadsheet_id with
  | .ok sheets => (findSheetId sheets sheet_name, [.spreadsheetsGet spreadsheet_id])
  | .error _ => (none, [.spreadsheetsGet spreadsheet_id])

/-- The document-id resolution prefix shared verbatim by every dispatcher
action: `sheet_id = spreadsheet_id or client.current_spreadsheet_id`
followed by `if not sheet_id: raise ValueError(...)`. -/
def resolveId (spreadsheet_id : Option String) (client : Client) :
    Except PyErr String :=
  match pyOr spreadsheet_id client.current_spreadsheet_id with
  | some s => if s = "" then .error (.valueError noSpreadsheetMsg) else .ok s
  | none => .error (.valueError noSpreadsheetMsg)

/-- The characters before the first exclamation mark. -/
def takeUntilBang : List Char → List Char
  | [] => []
  | c :: cs => if c.toNat = 33 then [] else c :: takeUntilBang cs

/-- Whether an exclamation mark occurs. -/
def containsBang : List Char → Bool
  | [] => false
  | c :: cs => (c.toNat = 33) || containsBang cs

/-- The sheet-name prefix extraction used by range-taking actions:
`range.split('!')[0] if '!' in range else 'Sheet1'`. -/
def sheetNameOf (r : String) : String :=
  if containsBang r.toList then String.mk (takeUntilBang r.toList) else "Sheet1"

/-- Result model of the `SpreadsheetInfo` pydantic record returned by
`spreadsheet_create`. -/
structure SpreadsheetInfo where
  spreadsheet_id : String
  title : String
  url : String
  sheets : List String
  deriving Repr, DecidableEq

/-- Embedding of the `spreadsheet_create` action: one `create` call; on
success the current-document slot is set to the response id and a
`SpreadsheetInfo` echoing the input title and sheet list is returned. -/
def spreadsheet_create (env : Env) (client : Client)
    (title : String) (sheets : List String) : ActionResult SpreadsheetInfo :=
  match env.createSpreadsheet title sheets with
  | .ok resp =>
    { result := .ok
        { spreadsheet_id := resp.spreadsheetId
          title := title
          url := resp.spreadsheetUrl.getD ""
          sheets := sheets }
      calls := [.spreadsheetsCreate title sheets]
      client := { current_spreadsheet_id := some resp.spreadsheetId } }
  | .error e =>
    { result := .error (.httpError e)
      calls := [.spreadsheetsCreate title sheets]
      client := client }

/-- Embedding of the `values_get` action. -/
def values_get (env : Env) (client : Client) (range : String)
    (spreadsheet_id : Option String) (value_render_option : String) :
    ActionResult (List (List String)) :=
  match resolveId spreadsheet_id client with
  | .error e => { result := .error e, calls := [], client := client }
  | .ok sid =>
    match env.valuesGet sid range value_render_option with
    | .ok vs =>
      { result := .ok (vs.getD [])
        calls := [.valuesGet sid range value_render_option]
        client := client }
    | .error e =>
      { result := .error (.httpError e)
        calls := [.valuesGet sid range value_render_option]
        client := client }

/-- The result record of `values_update` (field selection from the raw
response; missing fields default to `0` / the request range). -/
structure ValuesUpdateResult where
  updatedCells : Int
  updatedRows : Int
  updatedColumns : Int
  updatedRange : String
  deriving Repr, DecidableEq

/-- Embedding of the `values_update` action. -/
def values_update (env : Env) (client : Client) (range : String)
    (values : List (List String)) (spreadsheet_id : Option String)
    (value_input_option : String) : ActionResult ValuesUpdateResult :=
  match resolveId spreadsheet_id client with
  | .error e => { result := .error e, calls := [], client := client }
  | .ok sid =>
    match env.valuesUpdate sid range value_input_option values with
    | .ok r =>
      { result := .ok
          { updatedCells := r.updatedCells
            updatedRows := r.updatedRows
            updatedColumns := r.updatedColumns
            updatedRange := r.updatedRange.getD range }
        calls := [.valuesUpdate sid range value_input_option]
        client := client }
    | .error e =>
      { result := .error (.httpError e)
        calls := [.valuesUpdate sid range value_input_option]
        client := client }

/-- The result record of `values_append`. -/
structure ValuesAppendResult where
  updatedCells : Int
  updatedRows : Int
  updatedRange : String
  deriving Repr, DecidableEq

/-- Embedding of the `values_append` action (`valueInputOption` is fixed
to `USER_ENTERED` in the source). -/
def values_append (env : Env) (client : Client) (range : String)
    (values : List (List String)) (spreadsheet_id : Option String)
    (insert_data_option : String) : ActionResult ValuesAppendResult :=
  match resolveId spreadsheet_id client with
  | .error e => { result := .error e, calls := [], client := client }
  | .ok sid =>
    match env.valuesAppend sid range insert_data_option values with
    | .ok r =>
      { result := .ok
          { updatedCells := r.updatedCells
            updatedRows := r.updatedRows
            updatedRange := r.updatedRange.getD "" }
        calls := [.valuesAppend sid range insert_data_option]
        client := client }
    | .error e =>
      { result := .error (.httpError e)
        calls := [.valuesAppend sid range insert_data_option]
        client := client }

/-- Embedding of the `values_clear` action. -/
def values_clear (env : Env) (client : Client) (range : String)
    (spreadsheet_id : Option String) : ActionResult String :=
  match resolveId spreadsheet_id client with
  | .error e => { result := .error e, calls := [], client := client }
  | .ok sid =>
    match env.valuesClear sid range with
    | .ok cleared =>
      { result := .ok ("Cleared range: " ++ cleared.getD range)
        calls := [.valuesClear sid range]
        client := client }
    | .error e =>
      { result := .error (.httpError e)
        calls := [.valuesClear sid range]
        client := client }

/-- The result record of `sheet_add` (when the batch reply carries the new
sheet's properties they are echoed; otherwise the inputs are echoed). -/
structure SheetAddResult where
  sheetId : Option Int
  title : String
  rows : Int
  columns : Int
  deriving Repr, DecidableEq

/-- Embedding of the `sheet_add` action: one `addSheet` batch request with
the requested grid size. -/
def sheet_add (env : Env) (client : Client) (title : String)
    (spreadsheet_id : Option String) (rows columns : Int) :
    ActionResult SheetAddResult :=
  match resolveId spreadsheet_id client with
  | .error e => { result := .error e, calls := [], client := client }
  | .ok sid =>
    let reqs : List Request := [.addSheet title (some rows) (some columns)]
    match env.batchUpdate sid reqs with
    | .ok replies =>
      match replies with
      | .addSheet newId newTitle :: _ =>
        { result := .ok { sheetId := some newId, title := newTitle, rows := rows, columns := columns }
          calls := [.batchUpdate sid reqs]
          client := client }
      | _ =>
        { result := .ok { sheetId := none, title := title, rows := rows, columns := columns }
          calls := [.batchUpdate sid reqs]
          client := client }
    | .error e =>
      { result := .error (.httpError e)
        calls := [.batchUpdate sid reqs]
        client := client }

/-- Embedding of the `sheet_delete` action: resolve the sheet name via one
metadata read, then one `deleteSheet` batch request. -/
def sheet_delete (env : Env) (client : Client) (sheet_name : String)
    (spreadsheet_id : Option String) : ActionResult String :=
  match resolveId spreadsheet_id client with
  | .error e => { result := .error e, calls := [], client := client }
  | .ok sid =>
    match get_sheet_id_by_name env sid sheet_name with
    | (none, c1) =>
      { result := .error (.valueError (sheetNotFoundMsg sheet_name))
        calls := c1
        client := client }
    | (some sheetId, c1) =>
      let reqs : List Request := [.deleteSheet sheetId]
      match env.batchUpdate sid reqs with
      | .ok _ =>
        { result := .ok ("Deleted sheet: " ++ sheet_name)
          calls := c1 ++ [.batchUpdate sid reqs]
          client := client }
      | .error e =>
        { result := .error (.httpError e)
          calls := c1 ++ [.batchUpdate sid reqs]
          client := client }

/-- The result record of `sheet_duplicate`. -/
structure SheetDuplicateResult where
  sheetId : Option Int
  title : String
  deriving Repr, DecidableEq

/-- Embedding of the `sheet_duplicate` action. -/
def sheet_duplicate (env : Env) (client : Client)
    (source_sheet_name new_sheet_name : String)
    (spreadsheet_id : Option String) : ActionResult SheetDuplicateResult :=
  match resolveId spreadsheet_id client with
  | .error e => { result := .error e, calls := [], client := client }
  | .ok sid =>
    match get_sheet_id_by_name env sid source_sheet_name with
    | (none, c1) =>
      { result := .error (.valueError (sheetNotFoundMsg source_sheet_name))
        calls := c1
        client := client }
    | (some srcId, c1) =>
      let reqs : List Request := [.duplicateSheet srcId new_sheet_name]
      match env.batchUpdate sid reqs with
      | .ok replies =>
        match replies with
        | .duplicateSheet newId newTitle :: _ =>
          { result := .ok { sheetId := some newId, title := newTitle }
            calls := c1 ++ [.batchUpdate sid reqs]
            client := client }
        | _ =>
          { result := .ok { sheetId := none, title := new_sheet_name }
            calls := c1 ++ [.batchUpdate sid reqs]
            client := client }
      | .error e =>
        { result := .error (.httpError e)
          calls := c1 ++ [.batchUpdate sid reqs]
          client := client }

/-- Value of one hex digit character, or `none` when the character is not
a hex digit (mirrors what `int(s, 16)` accepts per character). -/
def hexDigitVal (c : Char) : Option Nat :=
  let n := c.toNat
  if 48 ≤ n ∧ n ≤ 57 then some (n - 48)
  else if 97 ≤ n ∧ n ≤ 102 then some (n - 87)
  else if 65 ≤ n ∧ n ≤ 70 then some (n - 55)
  else none

/-- Accumulating hex parse over a character list. -/
def parseHexAux : Nat → List Char → Option Nat
  | acc, [] => some acc
  | acc, c :: cs =>
    match hexDigitVal c with
    | some d => parseHexAux (16 * acc + d) cs
    | none => none

/-- Hex parse of a character list, mirroring `int(s, 16)`: the empty
string is a parse error. -/
def parseHex (cs : List Char) : Option Nat :=
  match cs with
  | [] => none
  | _ => parseHexAux 0 cs

/-- Hex-colour parsing as done inline by the formatting actions:
`lstrip('#')`, then `int(h[0:2],16)`, `int(h[2:4],16)`, `int(h[4:6],16)`.
A parse failure models the `ValueError` that `int` raises. -/
def hexToColor (s : String) : Option Color :=
  let h := s.toList.dropWhile (fun c => c.toNat = 35)
  match parseHex ((h.drop 0).take 2), parseHex ((h.drop 2).take 2),
      parseHex ((h.drop 4).take 2) with
  | some r, some g, some b => some { red := r, green := g, blue := b }
  | _, _, _ => none

/-- The `ValueError` message stand-in for a failed `int(_, 16)` parse. -/
def invalidHexMsg : String := "invalid literal for int() with base 16"

/-- Truthiness filter for optional string arguments tested with
`if arg:` (drops `None` and the empty string). -/
def strArg (o : Option String) : Option String :=
  if truthy o then o else none

/-- The `cell_format` dictionary construction inside `format_cells`,
mirroring the incremental dict building of the source: the text format is
included when any of bold / italic / font size is given; colours are hex
parsed (a parse failure raises); the text colour creates the text-format
entry when absent. -/
def buildCellFormat (bold italic : Option Bool) (font_size : Option Int)
    (bg_color text_color h_align v_align : Option String) :
    Except PyErr CellFormatDict := do
  let tf : TextFormatDict :=
    { bold := bold, italic := italic, fontSize := font_size }
  let cf : CellFormatDict := {}
  let cf := if bold.isSome || italic.isSome || font_size.isSome then
    { cf with textFormat := some tf } else cf
  let cf ← match strArg bg_color with
    | some bg =>
      match hexToColor bg with
      | some col => pure { cf with backgroundColor := some col }
      | none => .error (.valueError invalidHexMsg)
    | none => pure cf
  let cf ← match strArg text_color with
    | some tc =>
      match hexToColor tc with
      | some col =>
        let tf0 := cf.textFormat.getD {}
        pure { cf with textFormat := some { tf0 with foregroundColor := some col } }
      | none => .error (.valueError invalidHexMsg)
    | none => pure cf
  let cf := match strArg h_align with
    | some h => { cf with horizontalAlignment := some h }
    | none => cf
  let cf := match strArg v_align with
    | some v => { cf with verticalAlignment := some v }
    | none => cf
  pure cf

/-- The fixed rectangular extent substituted by most formatting-family
actions (rows 0..99, columns 0..25), applied "to the whole sheet for
simplicity" instead of parsing the caller-supplied A1 range. -/
def defaultExtent (sheetId : Int) : GridRange :=
  { sheetId := sheetId
    startRowIndex := 0
    endRowIndex := 100
    startColumnIndex := 0
    endColumnIndex := 26 }

/-- Embedding of the `format_cells` action: resolve the sheet-name prefix
of the range, build the format dictionary, then issue one `repeatCell`
batch request over the fixed default extent. -/
def format_cells (env : Env) (client : Client) (range : String)
    (spreadsheet_id : Option String) (bold italic : Option Bool)
    (font_size : Option Int) (bg_color text_color h_align v_align : Option String) :
    ActionResult String :=
  match resolveId spreadsheet_id client with
  | .error e => { result := .error e, calls := [], client := client }
  | .ok sid =>
    let sheet_name := sheetNameOf range
    match get_sheet_id_by_name env sid sheet_name with
    | (none, c1) =>
      { result := .error (.valueError (sheetNotFoundMsg sheet_name))
        calls := c1
        client := client }
    | (some sheetId, c1) =>
      match buildCellFormat bold italic font_size bg_color text_color h_align v_align with
      | .error e => { result := .error e, calls := c1, client := client }
      | .ok cf =>
        let reqs : List Request := [.repeatCellFormat (defaultExtent sheetId) cf]
        match env.batchUpdate sid reqs with
        | .ok _ =>
          { result := .ok ("Applied formatting to " ++ range)
            calls := c1 ++ [.batchUpdate sid reqs]
            client := client }
        | .error e =>
          { result := .error (.httpError e)
            calls := c1 ++ [.batchUpdate sid reqs]
            client := client }

/-- Embedding of the `filter_apply` action: the request uses a fixed
default extent (rows 0..999, columns 0..25) and empty criteria; the
`filter_range` and `criteria` arguments do not reach the request. -/
def filter_apply (env : Env) (client : Client) (sheet_name filter_range : String)
    (spreadsheet_id : Option String) : ActionResult String :=
  match resolveId spreadsheet_id client with
  | .error e => { result := .error e, calls := [], client := client }
  | .ok sid =>
    match get_sheet_id_by_name env sid sheet_name with
    | (none, c1) =>
      { result := .error (.valueError (sheetNotFoundMsg sheet_name))
        calls := c1
        client := client }
    | (some sheetId, c1) =>
      let reqs : List Request := [.setBasicFilter
        { sheetId := sheetId
          startRowIndex := 0
          endRowIndex := 1000
          startColumnIndex := 0
          endColumnIndex := 26 }]
      match env.batchUpdate sid reqs with
      | .ok _ =>
        { result := .ok ("Applied filter to " ++ filter_range ++ " in " ++ sq ++ sheet_name ++ sq)
          calls := c1 ++ [.batchUpdate sid reqs]
          client := client }
      | .error e =>
        { result := .error (.httpError e)
          calls := c1 ++ [.batchUpdate sid reqs]
          client := client }

/-- Embedding of the `conditional_format_add` action (fixed default
extent; the condition value list is stringified). -/
def conditional_format_add (env : Env) (client : Client) (range : String)
    (rule_type : String) (condition_values : List String)
    (spreadsheet_id : Option String) : ActionResult String :=
  match resolveId spreadsheet_id client with
  | .error e => { result := .error e, calls := [], client := client }
  | .ok sid =>
    let sheet_name := sheetNameOf range
    match get_sheet_id_by_name env sid sheet_name with
    | (none, c1) =>
      { result := .error (.valueError (sheetNotFoundMsg sheet_name))
        calls := c1
        client := client }
    | (some sheetId, c1) =>
      let reqs : List Request := [.addConditionalFormatRule
        [defaultExtent sheetId] rule_type condition_values 0]
      match env.batchUpdate sid reqs with
      | .ok _ =>
        { result := .ok ("Added conditional formatting to " ++ range)
          calls := c1 ++ [.batchUpdate sid reqs]
          client := client }
      | .error e =>
        { result := .error (.httpError e)
          calls := c1 ++ [.batchUpdate sid reqs]
          client := client }

/-- The validation-rule condition values built by `validation_add`: a user
value per list entry for `ONE_OF_LIST`, the stringified min / max pair for
`NUMBER_BETWEEN`, nothing otherwise. -/
def validationValues (validation_type : String) (values : Option (List String))
    (min_value max_value : Option String) : List String :=
  if validation_type = "ONE_OF_LIST" ∧ (values.getD []) ≠ [] then values.getD []
  else if validation_type = "NUMBER_BETWEEN" then
    [min_value.getD "None", max_value.getD "None"]
  else []

/-- Embedding of the `validation_add` action (fixed default extent).  The
numeric min / max arguments are modelled as already-stringified values,
matching the `str(min_value)` in the source. -/
def validation_add (env : Env) (client : Client) (range : String)
    (validation_type : String) (values : Option (List String))
    (min_value max_value : Option String)
    (spreadsheet_id : Option String) : ActionResult String :=
  match resolveId spreadsheet_id client with
  | .error e => { result := .error e, calls := [], client := client }
  | .ok sid =>
    let sheet_name := sheetNameOf range
    match get_sheet_id_by_name env sid sheet_name with
    | (none, c1) =>
      { result := .error (.valueError (sheetNotFoundMsg sheet_name))
        calls := c1
        client := client }
    | (some sheetId, c1) =>
      let reqs : List Request := [.setDataValidation (defaultExtent sheetId)
        validation_type
        (validationValues validation_type values min_value max_value)
        true true]
      match env.batchUpdate sid reqs with
      | .ok _ =>
        { result := .ok ("Added data validation to " ++ range)
          calls := c1 ++ [.batchUpdate sid reqs]
          client := client }
      | .error e =>
        { result := .error (.httpError e)
          calls := c1 ++ [.batchUpdate sid reqs]
          client := client }

/-- The result record of `named_range_add`. -/
structure NamedRangeAddResult where
  name : String
  range : String
  namedRangeId : String
  deriving Repr, DecidableEq

/-- Embedding of the `named_range_add` action (fixed default extent). -/
def named_range_add (env : Env) (client : Client) (name range : String)
    (spreadsheet_id : Option String) : ActionResult NamedRangeAddResult :=
  match resolveId spreadsheet_id client with
  | .error e => { result := .error e, calls := [], client := client }
  | .ok sid =>
    let sheet_name := sheetNameOf range
    match get_sheet_id_by_name env sid sheet_name with
    | (none, c1) =>
      { result := .error (.valueError (sheetNotFoundMsg sheet_name))
        calls := c1
        client := client }
    | (some sheetId, c1) =>
      let reqs : List Request := [.addNamedRange name (defaultExtent sheetId)]
      match env.batchUpdate sid reqs with
      | .ok replies =>
        let nrid := match replies with
          | .addNamedRange i :: _ => i
          | _ => ""
        { result := .ok { name := name, range := range, namedRangeId := nrid }
          calls := c1 ++ [.batchUpdate sid reqs]
          client := client }
      | .error e =>
        { result := .error (.httpError e)
          calls := c1 ++ [.batchUpdate sid reqs]
          client := client }

/-- Embedding of the `cells_merge` action (fixed extent rows 0..9,
columns 0..4). -/
def cells_merge (env : Env) (client : Client) (range merge_type : String)
    (spreadsheet_id : Option String) : ActionResult String :=
  match resolveId spreadsheet_id client with
  | .error e => { result := .error e, calls := [], client := client }
  | .ok sid =>
    let sheet_name := sheetNameOf range
    match get_sheet_id_by_name env sid sheet_name with
    | (none, c1) =>
      { result := .error (.valueError (sheetNotFoundMsg sheet_name))
        calls := c1
        client := client }
    | (some sheetId, c1) =>
      let reqs : List Request := [.mergeCells
        { sheetId := sheetId
          startRowIndex := 0
          endRowIndex := 10
          startColumnIndex := 0
          endColumnIndex := 5 } merge_type]
      match env.batchUpdate sid reqs with
      | .ok _ =>
        { result := .ok ("Merged cells in " ++ range ++ " using " ++ merge_type)
          calls := c1 ++ [.batchUpdate sid reqs]
          client := client }
      | .error e =>
        { result := .error (.httpError e)
          calls := c1 ++ [.batchUpdate sid reqs]
          client := client }

/-- Embedding of the `borders_update` action (fixed extent rows 0..9,
columns 0..4; the same border descriptor on all six positions, captured
once in the request constructor). -/
def borders_update (env : Env) (client : Client) (range : String)
    (border_style : String) (border_width : Int) (border_color : String)
    (spreadsheet_id : Option String) : ActionResult String :=
  match resolveId spreadsheet_id client with
  | .error e => { result := .error e, calls := [], client := client }
  | .ok sid =>
    let sheet_name := sheetNameOf range
    match get_sheet_id_by_name env sid sheet_name with
    | (none, c1) =>
      { result := .error (.valueError (sheetNotFoundMsg sheet_name))
        calls := c1
        client := client }
    | (some sheetId, c1) =>
      match hexToColor border_color with
      | none =>
        { result := .error (.valueError invalidHexMsg)
          calls := c1
          client := client }
      | some col =>
        let reqs : List Request := [.updateBorders
          { sheetId := sheetId
            startRowIndex := 0
            endRowIndex := 10
            startColumnIndex := 0
            endColumnIndex := 5 }
          { style := border_style, width := border_width, color := col }]
        match env.batchUpdate sid reqs with
        | .ok _ =>
          { result := .ok ("Updated borders for " ++ range)
            calls := c1 ++ [.batchUpdate sid reqs]
            client := client }
        | .error e =>
          { result := .error (.httpError e)
            calls := c1 ++ [.batchUpdate sid reqs]
            client := client }

/-- The result record of `find_replace`. -/
structure FindReplaceResult where
  occurrencesChanged : Int
  find : String
  replace : String
  deriving Repr, DecidableEq

/-- Embedding of the `find_replace` action.  When a sheet name is given it
is resolved, and the numeric id is attached to the request only when the
resolution succeeded; an unresolved name is silently dropped and the
mutating call still goes out unrestricted. -/
def find_replace (env : Env) (client : Client) (find replace : String)
    (sheet_name : Option String) (match_case match_entire_cell : Bool)
    (spreadsheet_id : Option String) : ActionResult FindReplaceResult :=
  match resolveId spreadsheet_id client with
  | .error e => { result := .error e, calls := [], client := client }
  | .ok sid =>
    let (sheetId?, c1) :=
      match strArg sheet_name with
      | some name => get_sheet_id_by_name env sid name
      | none => ((none : Option Int), ([] : List NetCall))
    let reqs : List Request := [.findReplace find replace
      match_case match_entire_cell false false sheetId?]
    match env.batchUpdate sid reqs with
    | .ok replies =>
      let occ := match replies with
        | .findReplace n :: _ => n
        | _ => 0
      { result := .ok { occurrencesChanged := occ, find := find, replace := replace }
        calls := c1 ++ [.batchUpdate sid reqs]
        client := client }
    | .error e =>
      { result := .error (.httpError e)
        calls := c1 ++ [.batchUpdate sid reqs]
        client := client }

/-- Embedding of the `rows_insert` action. -/
def rows_insert (env : Env) (client : Client) (sheet_name : String)
    (start_index num_rows : Int) (spreadsheet_id : Option String) :
    ActionResult String :=
  match resolveId spreadsheet_id client with
  | .error e => { result := .error e, calls := [], client := client }
  | .ok sid =>
    match get_sheet_id_by_name env sid sheet_name with
    | (none, c1) =>
      { result := .error (.valueError (sheetNotFoundMsg sheet_name))
        calls := c1
        client := client }
    | (some sheetId, c1) =>
      let reqs : List Request := [.insertDimension sheetId "ROWS"
        start_index (start_index + num_rows) true]
      match env.batchUpdate sid reqs with
      | .ok _ =>
        { result := .ok ("Inserted rows in " ++ sq ++ sheet_name ++ sq)
          calls := c1 ++ [.batchUpdate sid reqs]
          client := client }
      | .error e =>
        { result := .error (.httpError e)
          calls := c1 ++ [.batchUpdate sid reqs]
          client := client }

/-- Python `ord` on a string argument: succeeds exactly on one-character
strings, yielding the code point (the column-letter actions call it
directly on their string parameters). -/
def pyOrd (s : String) : Except PyErr Nat :=
  match s.toList with
  | [c] => .ok c.toNat
  | _ => .error (.valueError "ord() expected a character")

/-- The single-letter column mapping used throughout the dimension
actions: `ord(column) - ord('A')` as a signed index. -/
def ordMinusA (n : Nat) : Int := (n : Int) - 65

/-- Embedding of the `columns_hide` action: the start and end column
letters are mapped by plain code-point offset. -/
def columns_hide (env : Env) (client : Client)
    (sheet_name start_column end_column : String)
    (spreadsheet_id : Option String) : ActionResult String :=
  match resolveId spreadsheet_id client with
  | .error e => { result := .error e, calls := [], client := client }
  | .ok sid =>
    match get_sheet_id_by_name env sid sheet_name with
    | (none, c1) =>
      { result := .error (.valueError (sheetNotFoundMsg sheet_name))
        calls := c1
        client := client }
    | (some sheetId, c1) =>
      match pyOrd start_column, pyOrd end_column with
      | .ok ns, .ok ne =>
        let start_idx := ordMinusA ns
        let end_idx := ordMinusA ne + 1
        let reqs : List Request := [.updateDimensionProperties sheetId "COLUMNS"
          start_idx end_idx (some true) none]
        match env.batchUpdate sid reqs with
        | .ok _ =>
          { result := .ok ("Hidden columns " ++ start_column ++ " to " ++ end_column)
            calls := c1 ++ [.batchUpdate sid reqs]
            client := client }
        | .error e =>
          { result := .error (.httpError e)
            calls := c1 ++ [.batchUpdate sid reqs]
            client := client }
      | .error e, _ => { result := .error e, calls := c1, client := client }
      | _, .error e => { result := .error e, calls := c1, client := client }

/-- Embedding of the `column_resize` action. -/
def column_resize (env : Env) (client : Client)
    (sheet_name column : String) (width : Int)
    (spreadsheet_id : Option String) : ActionResult String :=
  match resolveId spreadsheet_id client with
  | .error e => { result := .error e, calls := [], client := client }
  | .ok sid =>
    match get_sheet_id_by_name env sid sheet_name with
    | (none, c1) =>
      { result := .error (.valueError (sheetNotFoundMsg sheet_name))
        calls := c1
        client := client }
    | (some sheetId, c1) =>
      match pyOrd column with
      | .ok n =>
        let col_idx := ordMinusA n
        let reqs : List Request := [.updateDimensionProperties sheetId "COLUMNS"
          col_idx (col_idx + 1) none (some width)]
        match env.batchUpdate sid reqs with
        | .ok _ =>
          { result := .ok ("Resized column " ++ column)
            calls := c1 ++ [.batchUpdate sid reqs]
            client := client }
        | .error e =>
          { result := .error (.httpError e)
            calls := c1 ++ [.batchUpdate sid reqs]
            client := client }
      | .error e => { result := .error e, calls := c1, client := client }

/-- Embedding of the `columns_group` action. -/
def columns_group (env : Env) (client : Client)
    (sheet_name start_column end_column : String)
    (spreadsheet_id : Option String) : ActionResult String :=
  match resolveId spreadsheet_id client with
  | .error e => { result := .error e, calls := [], client := client }
  | .ok sid =>
    match get_sheet_id_by_name env sid sheet_name with
    | (none, c1) =>
      { result := .error (.valueError (sheetNotFoundMsg sheet_name))
        calls := c1
        client := client }
    | (some sheetId, c1) =>
      match pyOrd start_column, pyOrd end_column with
      | .ok ns, .ok ne =>
        let start_idx := ordMinusA ns
        let end_idx := ordMinusA ne + 1
        let reqs : List Request := [.addDimensionGroup sheetId "COLUMNS"
          start_idx end_idx]
        match env.batchUpdate sid reqs with
        | .ok _ =>
          { result := .ok ("Grouped columns " ++ start_column ++ " to " ++ end_column)
            calls := c1 ++ [.batchUpdate sid reqs]
            client := client }
        | .error e =>
          { result := .error (.httpError e)
            calls := c1 ++ [.batchUpdate sid reqs]
            client := client }
      | .error e, _ => { result := .error e, calls := c1, client := client }
      | _, .error e => { result := .error e, calls := c1, client := client }

/-- Embedding of the `text_rotate` action (fixed default extent). -/
def text_rotate (env : Env) (client : Client) (range : String) (angle : Int)
    (spreadsheet_id : Option String) : ActionResult String :=
  match resolveId spreadsheet_id client with
  | .error e => { result := .error e, calls := [], client := client }
  | .ok sid =>
    let sheet_name := sheetNameOf range
    match get_sheet_id_by_name env sid sheet_name with
    | (none, c1) =>
      { result := .error (.valueError (sheetNotFoundMsg sheet_name))
        calls := c1
        client := client }
    | (some sheetId, c1) =>
      let reqs : List Request := [.repeatCellTextRotation (defaultExtent sheetId) angle]
      match env.batchUpdate sid reqs with
      | .ok _ =>
        { result := .ok ("Rotated text in " ++ range)
          calls := c1 ++ [.batchUpdate sid reqs]
          client := client }
      | .error e =>
        { result := .error (.httpError e)
          calls := c1 ++ [.batchUpdate sid reqs]
          client := client }

/-- Embedding of the `text_wrap` action (fixed default extent). -/
def text_wrap (env : Env) (client : Client) (range wrap_strategy : String)
    (spreadsheet_id : Option String) : ActionResult String :=
  match resolveId spreadsheet_id client with
  | .error e => { result := .error e, calls := [], client := client }
  | .ok sid =>
    let sheet_name := sheetNameOf range
    match get_sheet_id_by_name env sid sheet_name with
    | (none, c1) =>
      { result := .error (.valueError (sheetNotFoundMsg sheet_name))
        calls := c1
        client := client }
    | (some sheetId, c1) =>
      let reqs : List Request := [.repeatCellWrapStrategy (defaultExtent sheetId) wrap_strategy]
      match env.batchUpdate sid reqs with
      | .ok _ =>
        { result := .ok ("Set text wrapping to " ++ wrap_strategy ++ " in " ++ range)
          calls := c1 ++ [.batchUpdate sid reqs]
          client := client }
      | .error e =>
        { result := .error (.httpError e)
          calls := c1 ++ [.batchUpdate sid reqs]
          client := client }

/-- Embedding of the `sheet_rename` action. -/
def sheet_rename (env : Env) (client : Client) (old_name new_name : String)
    (spreadsheet_id : Option String) : ActionResult String :=
  match resolveId spreadsheet_id client with
  | .error e => { result := .error e, calls := [], client := client }
  | .ok sid =>
    match get_sheet_id_by_name env sid old_name with
    | (none, c1) =>
      { result := .error (.valueError (sheetNotFoundMsg old_name))
        calls := c1
        client := client }
    | (some sheetId, c1) =>
      let reqs : List Request := [.updateSheetProperties sheetId "title"
        (some new_name) none none none none]
      match env.batchUpdate sid reqs with
      | .ok _ =>
        { result := .ok ("Renamed sheet from " ++ sq ++ old_name ++ sq ++
            " to " ++ sq ++ new_name ++ sq)
          calls := c1 ++ [.batchUpdate sid reqs]
          client := client }
      | .error e =>
        { result := .error (.httpError e)
          calls := c1 ++ [.batchUpdate sid reqs]
          client := client }

/-- Embedding of the `sheet_hide` action. -/
def sheet_hide (env : Env) (client : Client) (sheet_name : String)
    (spreadsheet_id : Option String) : ActionResult String :=
  match resolveId spreadsheet_id client with
  | .error e => { result := .error e, calls := [], client := client }
  | .ok sid =>
    match get_sheet_id_by_name env sid sheet_name with
    | (none, c1) =>
      { result := .error (.valueError (sheetNotFoundMsg sheet_name))
        calls := c1
        client := client }
    | (some sheetId, c1) =>
      let reqs : List Request := [.updateSheetProperties sheetId "hidden"
        none (some true) none none none]
      match env.batchUpdate sid reqs with
      | .ok _ =>
        { result := .ok ("Hidden sheet: " ++ sheet_name)
          calls := c1 ++ [.batchUpdate sid reqs]
          client := client }
      | .error e =>
        { result := .error (.httpError e)
          calls := c1 ++ [.batchUpdate sid reqs]
          client := client }

/-- Embedding of the `freeze_rows` action. -/
def freeze_rows (env : Env) (client : Client) (sheet_name : String)
    (num_rows : Int) (spreadsheet_id : Option String) : ActionResult String :=
  match resolveId spreadsheet_id client with
  | .error e => { result := .error e, calls := [], client := client }
  | .ok sid =>
    match get_sheet_id_by_name env sid sheet_name with
    | (none, c1) =>
      { result := .error (.valueError (sheetNotFoundMsg sheet_name))
        calls := c1
        client := client }
    | (some sheetId, c1) =>
      let reqs : List Request := [.updateSheetProperties sheetId
        "gridProperties.frozenRowCount" none none none (some num_rows) none]
      match env.batchUpdate sid reqs with
      | .ok _ =>
        { result := .ok ("Froze rows in " ++ sq ++ sheet_name ++ sq)
          calls := c1 ++ [.batchUpdate sid reqs]
          client := client }
      | .error e =>
        { result := .error (.httpError e)
          calls := c1 ++ [.batchUpdate sid reqs]
          client := client }

/-- The result record of `csv_import`. -/
structure CsvImportResult where
  sheet : String
  rows_imported : Nat
  columns_imported : Nat
  deriving Repr, DecidableEq

/-- Embedding of the `csv_import` action.  CSV parsing is delegated to the
Python standard library in the source and is passed in abstractly here as
`csvReader`.  The sheet-creation attempt sits inside a bare
`try / except: pass`: the sheet lookup is made, and when it yields no id an
`addSheet` batch call (without grid properties) goes out whose outcome —
success or failure — is discarded.  The subsequent `values().update` is
outside the suppression and its failure propagates. -/
def csv_import (env : Env) (client : Client)
    (csvReader : String → List (List String)) (csv_data sheet_name : String)
    (spreadsheet_id : Option String) : ActionResult CsvImportResult :=
  match resolveId spreadsheet_id client with
  | .error e => { result := .error e, calls := [], client := client }
  | .ok sid =>
    let values := csvReader csv_data
    let (sheetId?, c1) := get_sheet_id_by_name env sid sheet_name
    let c2 : List NetCall :=
      match sheetId? with
      | none => c1 ++ [.batchUpdate sid [.addSheet sheet_name none none]]
      | some _ => c1
    let range_name := sheet_name ++ "!A1"
    match env.valuesUpdate sid range_name "RAW" values with
    | .ok _ =>
      { result := .ok
          { sheet := sheet_name
            rows_imported := values.length
            columns_imported := (values.headD []).length }
        calls := c2 ++ [.valuesUpdate sid range_name "RAW"]
        client := client }
    | .error e =>
      { result := .error (.httpError e)
        calls := c2 ++ [.valuesUpdate sid range_name "RAW"]
        client := client }

/-- One observable step of the credential flow. -/
inductive AuthEvent where
  | readTokenFile
  | refreshCall
  | consentFlow
  | saveToken
  | buildService (api : String)
  deriving Repr, DecidableEq

/-- A persisted credential as `authenticate` inspects it: the `valid` and
`expired` flags and whether a refresh token is present. -/
structure Creds where
  valid : Bool
  expired : Bool
  has_refresh_token : Bool
  deriving Repr, DecidableEq

/-- The environment of the credential flow: the persisted token file (when
present and deserialisable), the `GOOGLE_OAUTH_PATH` variable, and the
outcomes of a refresh call and of the interactive consent flow. -/
structure AuthEnv where
  tokenFile : Option Creds
  googleOauthPath : Option String
  refreshOutcome : Creds → Except PyErr Creds
  consentOutcome : Except PyErr Creds

/-- The consent branch of `authenticate`: read `GOOGLE_OAUTH_PATH`
(raising a `ValueError` when unset, before any consent-flow call), then
run the interactive flow, save the token and build the two services. -/
def authenticateConsent (env : AuthEnv) (t0 : List AuthEvent) :
    Except PyErr Bool × List AuthEvent :=
  if truthy env.googleOauthPath then
    match env.consentOutcome with
    | .ok _ => (.ok true, t0 ++ [.consentFlow, .saveToken,
        .buildService "sheets", .buildService "drive"])
    | .error e => (.error e, t0 ++ [.consentFlow])
  else
    (.error (.valueError oauthPathMsg), t0)

/-- Embedding of `GoogleSheetsClient.authenticate`: load the persisted
token when present; when it is missing or invalid, refresh in place when
expired with a refresh token, otherwise run the consent branch; every
renewing path saves the token; finally build the sheets and drive
services. -/
def authenticate (env : AuthEnv) : Except PyErr Bool × List AuthEvent :=
  let t0 : List AuthEvent :=
    match env.tokenFile with
    | some _ => [.readTokenFile]
    | none => []
  match env.tokenFile with
  | some c =>
    if c.valid then
      (.ok true, t0 ++ [.buildService "sheets", .buildService "drive"])
    else if c.expired && c.has_refresh_token then
      match env.refreshOutcome c with
      | .ok _ => (.ok true, t0 ++ [.refreshCall, .saveToken,
          .buildService "sheets", .buildService "drive"])
      | .error e => (.error e, t0 ++ [.refreshCall])
    else
      authenticateConsent env t0
  | none => authenticateConsent env t0

/-- The outcome of the process entry point. -/
inductive MainOutcome where
  | exited (code : Nat) (stderrLines : List String)
  | serverRun
  deriving Repr, DecidableEq

/-- Embedding of `main`: when `GOOGLE_OAUTH_PATH` is unset the process
prints two diagnostics on stderr and exits with status 1 before the server
(and hence any network activity) starts; otherwise the server runs. -/
def main (googleOauthPath : Option String) : MainOutcome :=
  if truthy googleOauthPath then .serverRun
  else .exited 1
    ["Error: GOOGLE_OAUTH_PATH environment variable not set",
     "Please set it to your Google OAuth credentials JSON file path"]

/-- The upper-case alphabet, used as the spec-side reference for the
column-letter mapping. -/
def uppercaseAlphabet : String := "ABCDEFGHIJKLMNOPQRSTUVWXYZ"

/-- Spec-side reference definition for comparison with the source's
code-point arithmetic: the position of a letter in the alphabet. -/
def alphabetPos (c : Char) : Nat := uppercaseAlphabet.toList.indexOf c

/-- A helper proposition: the action failed with the local
no-target-document `ValueError` and issued zero network calls. -/
def failsLocallyNoCalls {α : Type} (r : ActionResult α) : Prop :=
  r.result = .error (.valueError noSpreadsheetMsg) ∧ r.calls = []

/-- A concrete healthy remote environment used by witnesses: one live
sheet named `Data` with id 3, and successful responses everywhere. -/
def envTest : Env :=
  { getSpreadsheet := fun _ => .ok [{ title := "Data", sheetId := 3 }]
    createSpreadsheet := fun _ _ =>
      .ok { spreadsheetId := "NEWID123", spreadsheetUrl := some "url" }
    batchUpdate := fun _ _ => .ok [.findReplace 2]
    valuesGet := fun _ _ _ => .ok (some [["x"]])
    valuesUpdate := fun _ _ _ _ =>
      .ok { updatedCells := 4, updatedRows := 2, updatedColumns := 2,
            updatedRange := some "Data!A1:B2" }
    valuesAppend := fun _ _ _ _ =>
      .ok { updatedCells := 0, updatedRows := 0, updatedRange := none }
    valuesClear := fun _ _ => .ok none }

/-- A concrete environment whose metadata read always fails with an HTTP
500, used to exercise the catch inside `get_sheet_id_by_name`. -/
def envHttpFail : Env :=
  { envTest with
    getSpreadsheet := fun _ => .error (HttpErr.mk 500 "Internal backend error") }

/-- A concrete credential-flow environment holding a valid persisted
token. -/
def authEnvValidToken : AuthEnv :=
  { tokenFile := some { valid := true, expired := false, has_refresh_token := true }
    googleOauthPath := some "/tmp/creds.json"
    refreshOutcome := fun c => .ok c
    consentOutcome := .ok { valid := true, expired := false, has_refresh_token := true } }

/-- A concrete credential-flow environment with no persisted token and no
`GOOGLE_OAUTH_PATH` configured. -/
def authEnvNoConfig : AuthEnv :=
  { tokenFile := none
    googleOauthPath := none
    refreshOutcome := fun c => .ok c
    consentOutcome := .ok { valid := true, expired := false, has_refresh_token := true } }

/-! Theorems.  Shared helper lemmas come first, then one theorem per
claim (with a witness or counterexample theorem where required). -/

/-- Resolution with a non-empty explicit id returns that id. -/
theorem resolveId_some {sid : String} (h : ¬ sid = "") (client : Client) :
    resolveId (some sid) client = .ok sid := by
  simp [resolveId, pyOr, truthy, h]

/-- A successful metadata read whose scan finds the sheet. -/
theorem get_sheet_id_found {env : Env} {sid name : String}
    {sheets : List SheetProps} {i : Int}
    (h1 : env.getSpreadsheet sid = .ok sheets)
    (h2 : findSheetId sheets name = some i) :
    get_sheet_id_by_name env sid name = (some i, [.spreadsheetsGet sid]) := by
  simp [get_sheet_id_by_name, h1, h2]

/-- A successful metadata read whose scan misses the sheet. -/
theorem get_sheet_id_missing {env : Env} {sid name : String}
    {sheets : List SheetProps}
    (h1 : env.getSpreadsheet sid = .ok sheets)
    (h2 : findSheetId sheets name = none) :
    get_sheet_id_by_name env sid name = (none, [.spreadsheetsGet sid]) := by
  simp [get_sheet_id_by_name, h1, h2]

/-- Claim C1: for every embedded dispatcher action that requires a
document identifier (`values_get`, `values_update`, `values_append`,
`values_clear`, `sheet_add`, `sheet_delete`, `format_cells`, and the
rest), when the caller supplies no explicit `spreadsheet_id` and the
client's `current_spreadsheet_id` slot is unset, the action fails with
the locally generated precondition error
"No spreadsheet_id provided and no current spreadsheet set" and issues
zero network calls. -/
theorem claim_C1_missing_document_id_fails_locally :
    (∀ env r vro, failsLocallyNoCalls
      (values_get env { current_spreadsheet_id := none } r none vro)) ∧
    (∀ env r vals vio, failsLocallyNoCalls
      (values_update env { current_spreadsheet_id := none } r vals none vio)) ∧
    (∀ env r vals ido, failsLocallyNoCalls
      (values_append env { current_spreadsheet_id := none } r vals none ido)) ∧
    (∀ env r, failsLocallyNoCalls
      (values_clear env { current_spreadsheet_id := none } r none)) ∧
    (∀ env t rows cols, failsLocallyNoCalls
      (sheet_add env { current_spreadsheet_id := none } t none rows cols)) ∧
    (∀ env name, failsLocallyNoCalls
      (sheet_delete env { current_spreadsheet_id := none } name none)) ∧
    (∀ env src new, failsLocallyNoCalls
      (sheet_duplicate env { current_spreadsheet_id := none } src new none)) ∧
    (∀ env r b i fs bg tc h v, failsLocallyNoCalls
      (format_cells env { current_spreadsheet_id := none } r none b i fs bg tc h v)) ∧
    (∀ env name si nr, failsLocallyNoCalls
      (rows_insert env { current_spreadsheet_id := none } name si nr none)) ∧
    (∀ env name fr, failsLocallyNoCalls
      (filter_apply env { current_spreadsheet_id := none } name fr none)) ∧
    (∀ env r rt cv, failsLocallyNoCalls
      (conditional_format_add env { current_spreadsheet_id := none } r rt cv none)) ∧
    (∀ env r vt vals mn mx, failsLocallyNoCalls
      (validation_add env { current_spreadsheet_id := none } r vt vals mn mx none)) ∧
    (∀ env nm r, failsLocallyNoCalls
      (named_range_add env { current_spreadsheet_id := none } nm r none)) ∧
    (∀ env r mt, failsLocallyNoCalls
      (cells_merge env { current_spreadsheet_id := none } r mt none)) ∧
    (∀ env r bs bw bc, failsLocallyNoCalls
      (borders_update env { current_spreadsheet_id := none } r bs bw bc none)) ∧
    (∀ env f rp sn mc mec, failsLocallyNoCalls
      (find_replace env { current_spreadsheet_id := none } f rp sn mc mec none)) ∧
    (∀ env sn sc ec, failsLocallyNoCalls
      (columns_hide env { current_spreadsheet_id := none } sn sc ec none)) ∧
    (∀ env sn col w, failsLocallyNoCalls
      (column_resize env { current_spreadsheet_id := none } sn col w none)) ∧
    (∀ env sn sc ec, failsLocallyNoCalls
      (columns_group env { current_spreadsheet_id := none } sn sc ec none)) ∧
    (∀ env r a, failsLocallyNoCalls
      (text_rotate env { current_spreadsheet_id := none } r a none)) ∧
    (∀ env r ws, failsLocallyNoCalls
      (text_wrap env { current_spreadsheet_id := none } r ws none)) ∧
    (∀ env o n, failsLocallyNoCalls
      (sheet_rename env { current_spreadsheet_id := none } o n none)) ∧
    (∀ env sn, failsLocallyNoCalls
      (sheet_hide env { current_spreadsheet_id := none } sn none)) ∧
    (∀ env sn nr, failsLocallyNoCalls
      (freeze_rows env { current_spreadsheet_id := none } sn nr none)) ∧
    (∀ env rd d sn, failsLocallyNoCalls
      (csv_import env { current_spreadsheet_id := none } rd d sn none)) := by
  repeat' apply And.intro
  all_goals intros
  all_goals exact ⟨rfl, rfl⟩

/-- Claim C3: for every column letter in the range A to Z, the zero-based
index computed by the dimension actions (`columns_hide`, `column_resize`,
`columns_group`, and the rest) — Python `ord(column) - ord('A')`, embedded
as `pyOrd` followed by `ordMinusA` — equals the letter's position in the
alphabet (A to 0, Z to 25). -/
theorem claim_C3_column_letter_mapping :
    ∀ c ∈ uppercaseAlphabet.toList,
      pyOrd (String.singleton c) = .ok c.toNat ∧
      ordMinusA c.toNat = (alphabetPos c : Int) := by
  intro c hc
  fin_cases hc <;> exact ⟨rfl, rfl⟩

/-- Witness for claim C3, at the letter Q. -/
theorem claim_C3_column_letter_mapping_witness :
    (Char.ofNat 81) ∈ uppercaseAlphabet.toList ∧
      (pyOrd (String.singleton (Char.ofNat 81)) = .ok (Char.ofNat 81).toNat ∧
       ordMinusA (Char.ofNat 81).toNat = (alphabetPos (Char.ofNat 81) : Int)) :=
  ⟨by decide, claim_C3_column_letter_mapping _ (by decide)⟩

/-- Claim C4: the current-document slot is mutated only by
`spreadsheet_create` (set to the response id after a successful creation);
every other embedded action — including those accepting an explicit
`spreadsheet_id` argument — leaves the slot unchanged on every path. -/
theorem claim_C4_current_slot_set_only_by_create :
    (∀ env client t s resp, env.createSpreadsheet t s = .ok resp →
      (spreadsheet_create env client t s).client =
        { current_spreadsheet_id := some resp.spreadsheetId }) ∧
    (∀ env client t s e, env.createSpreadsheet t s = .error e →
      (spreadsheet_create env client t s).client = client) ∧
    (∀ env client r sp vro, (values_get env client r sp vro).client = client) ∧
    (∀ env client r vals sp vio, (values_update env client r vals sp vio).client = client) ∧
    (∀ env client r vals sp ido, (values_append env client r vals sp ido).client = client) ∧
    (∀ env client r sp, (values_clear env client r sp).client = client) ∧
    (∀ env client t sp rows cols, (sheet_add env client t sp rows cols).client = client) ∧
    (∀ env client name sp, (sheet_delete env client name sp).client = client) ∧
    (∀ env client src new sp, (sheet_duplicate env client src new sp).client = client) ∧
    (∀ env client r sp b i fs bg tc h v,
      (format_cells env client r sp b i fs bg tc h v).client = client) ∧
    (∀ env client name si nr sp, (rows_insert env client name si nr sp).client = client) ∧
    (∀ env client name fr sp, (filter_apply env client name fr sp).client = client) ∧
    (∀ env client r rt cv sp,
      (conditional_format_add env client r rt cv sp).client = client) ∧
    (∀ env client r vt vals mn mx sp,
      (validation_add env client r vt vals mn mx sp).client = client) ∧
    (∀ env client nm r sp, (named_range_add env client nm r sp).client = client) ∧
    (∀ env client r mt sp, (cells_merge env client r mt sp).client = client) ∧
    (∀ env client r bs bw bc sp,
      (borders_update env client r bs bw bc sp).client = client) ∧
    (∀ env client f rp sn mc mec sp,
      (find_replace env client f rp sn mc mec sp).client = client) ∧
    (∀ env client sn sc ec sp, (columns_hide env client sn sc ec sp).client = client) ∧
    (∀ env client sn col w sp, (column_resize env client sn col w sp).client = client) ∧
    (∀ env client sn sc ec sp, (columns_group env client sn sc ec sp).client = client) ∧
    (∀ env client r a sp, (text_rotate env client r a sp).client = client) ∧
    (∀ env client r ws sp, (text_wrap env client r ws sp).client = client) ∧
    (∀ env client o n sp, (sheet_rename env client o n sp).client = client) ∧
    (∀ env client sn sp, (sheet_hide env client sn sp).client = client) ∧
    (∀ env client sn nr sp, (freeze_rows env client sn nr sp).client = client) ∧
    (∀ env client rd d sn sp, (csv_import env client rd d sn sp).client = client) := by
  refine ⟨?_, ?_, ?_, ?_, ?_, ?_, ?_, ?_, ?_, ?_, ?_, ?_, ?_, ?_, ?_, ?_, ?_,
    ?_, ?_, ?_, ?_, ?_, ?_, ?_, ?_, ?_, ?_⟩
  · intro env client t s resp h
    simp [spreadsheet_create, h]
  · intro env client t s e h
    simp [spreadsheet_create, h]
  all_goals intros
  all_goals simp only [values_get, values_update, values_append, values_clear,
    sheet_add, sheet_delete, sheet_duplicate, format_cells, rows_insert,
    filter_apply, conditional_format_add, validation_add, named_range_add,
    cells_merge, borders_update, find_replace, columns_hide, column_resize,
    columns_group, text_rotate, text_wrap, sheet_rename, sheet_hide,
    freeze_rows, csv_import]
  all_goals repeat first
    | rfl
    | split
    | dsimp only

/-- Witness for claim C4: a successful creation against the concrete test
environment sets the slot to the response id. -/
theorem claim_C4_current_slot_set_only_by_create_witness :
    envTest.createSpreadsheet "T" ["A"] =
      .ok { spreadsheetId := "NEWID123", spreadsheetUrl := some "url" } ∧
    (spreadsheet_create envTest { current_spreadsheet_id := none } "T" ["A"]).client =
      { current_spreadsheet_id := some "NEWID123" } :=
  ⟨rfl, claim_C4_current_slot_set_only_by_create.1 envTest
    { current_spreadsheet_id := none } "T" ["A"]
    { spreadsheetId := "NEWID123", spreadsheetUrl := some "url" } rfl⟩

/-- Counterexample for claim C2: `find_replace` receives a sheet name;
with the live sheet list containing only `Data`, the name `Ghost` is
absent, yet the action does not fail with a not-found error — it returns
a success result and issues its mutating `batchUpdate` call (with the
sheet restriction silently dropped). -/
theorem claim_C2_counterexample_find_replace :
    findSheetId [{ title := "Data", sheetId := 3 }] "Ghost" = none ∧
    envTest.getSpreadsheet "S1" = .ok [{ title := "Data", sheetId := 3 }] ∧
    (find_replace envTest { current_spreadsheet_id := none } "x" "y"
        (some "Ghost") false false (some "S1")).result =
      .ok { occurrencesChanged := 2, find := "x", replace := "y" } ∧
    (find_replace envTest { current_spreadsheet_id := none } "x" "y"
        (some "Ghost") false false (some "S1")).calls.filter
      NetCall.isMutating ≠ [] := by
  refine ⟨rfl, rfl, rfl, ?_⟩
  decide

/-- Claim C2 (amended): for every embedded action that requires its sheet
name to resolve (`sheet_delete`, `sheet_duplicate`, `rows_insert`,
`format_cells`, `filter_apply`, `conditional_format_add`,
`validation_add`, `named_range_add`, `cells_merge`, `borders_update`,
`columns_hide`, `column_resize`, `columns_group`, `text_rotate`,
`text_wrap`, `sheet_rename`, `sheet_hide`, `freeze_rows`): resolution
fetches the live sheet list with one metadata read and scans it with a
case-sensitive exact-match linear scan; when the name is absent, the
action fails with the local "Sheet not found" error having issued only
the read-only metadata call and no mutating call.  (`find_replace` is
excluded: when its optional sheet name fails to resolve, it drops the
restriction and still issues its mutating call; `csv_import` instead
creates the missing sheet.) -/
theorem claim_C2_sheet_not_found_no_mutation :
    (∀ sheets name, findSheetId sheets name =
      (sheets.find? fun s => s.title == name).map SheetProps.sheetId) ∧
    (∀ env sid name, (get_sheet_id_by_name env sid name).2 =
      [NetCall.spreadsheetsGet sid]) ∧
    (∀ (env : Env) client sid sheets name, ¬ sid = "" →
      env.getSpreadsheet sid = .ok sheets → findSheetId sheets name = none →
      (sheet_delete env client name (some sid)).result =
          .error (.valueError (sheetNotFoundMsg name)) ∧
        (sheet_delete env client name (some sid)).calls =
          [NetCall.spreadsheetsGet sid] ∧
        (sheet_delete env client name (some sid)).calls.filter
          NetCall.isMutating = []) ∧
    (∀ (env : Env) client sid sheets name new, ¬ sid = "" →
      env.getSpreadsheet sid = .ok sheets → findSheetId sheets name = none →
      (sheet_duplicate env client name new (some sid)).result =
          .error (.valueError (sheetNotFoundMsg name)) ∧
        (sheet_duplicate env client name new (some sid)).calls.filter
          NetCall.isMutating = []) ∧
    (∀ (env : Env) client sid sheets name si nr, ¬ sid = "" →
      env.getSpreadsheet sid = .ok sheets → findSheetId sheets name = none →
      (rows_insert env client name si nr (some sid)).result =
          .error (.valueError (sheetNotFoundMsg name)) ∧
        (rows_insert env client name si nr (some sid)).calls.filter
          NetCall.isMutating = []) ∧
    (∀ (env : Env) client sid sheets r b i fs bg tc h v, ¬ sid = "" →
      env.getSpreadsheet sid = .ok sheets →
      findSheetId sheets (sheetNameOf r) = none →
      (format_cells env client r (some sid) b i fs bg tc h v).result =
          .error (.valueError (sheetNotFoundMsg (sheetNameOf r))) ∧
        (format_cells env client r (some sid) b i fs bg tc h v).calls.filter
          NetCall.isMutating = []) ∧
    (∀ (env : Env) client sid sheets name fr, ¬ sid = "" →
      env.getSpreadsheet sid = .ok sheets → findSheetId sheets name = none →
      (filter_apply env client name fr (some sid)).result =
          .error (.valueError (sheetNotFoundMsg name)) ∧
        (filter_apply env client name fr (some sid)).calls.filter
          NetCall.isMutating = []) ∧
    (∀ (env : Env) client sid sheets r rt cv, ¬ sid = "" →
      env.getSpreadsheet sid = .ok sheets →
      findSheetId sheets (sheetNameOf r) = none →
      (conditional_format_add env client r rt cv (some sid)).result =
          .error (.valueError (sheetNotFoundMsg (sheetNameOf r))) ∧
        (conditional_format_add env client r rt cv (some sid)).calls.filter
          NetCall.isMutating = []) ∧
    (∀ (env : Env) client sid sheets r vt vals mn mx, ¬ sid = "" →
      env.getSpreadsheet sid = .ok sheets →
      findSheetId sheets (sheetNameOf r) = none →
      (validation_add env client r vt vals mn mx (some sid)).result =
          .error (.valueError (sheetNotFoundMsg (sheetNameOf r))) ∧
        (validation_add env client r vt vals mn mx (some sid)).calls.filter
          NetCall.isMutating = []) ∧
    (∀ (env : Env) client sid sheets nm r, ¬ sid = "" →
      env.getSpreadsheet sid = .ok sheets →
      findSheetId sheets (sheetNameOf r) = none →
      (named_range_add env client nm r (some sid)).result =
          .error (.valueError (sheetNotFoundMsg (sheetNameOf r))) ∧
        (named_range_add env client nm r (some sid)).calls.filter
          NetCall.isMutating = []) ∧
    (∀ (env : Env) client sid sheets r mt, ¬ sid = "" →
      env.getSpreadsheet sid = .ok sheets →
      findSheetId sheets (sheetNameOf r) = none →
      (cells_merge env client r mt (some sid)).result =
          .error (.valueError (sheetNotFoundMsg (sheetNameOf r))) ∧
        (cells_merge env client r mt (some sid)).calls.filter
          NetCall.isMutating = []) ∧
    (∀ (env : Env) client sid sheets r bs bw bc, ¬ sid = "" →
      env.getSpreadsheet sid = .ok sheets →
      findSheetId sheets (sheetNameOf r) = none →
      (borders_update env client r bs bw bc (some sid)).result =
          .error (.valueError (sheetNotFoundMsg (sheetNameOf r))) ∧
        (borders_update env client r bs bw bc (some sid)).calls.filter
          NetCall.isMutating = []) ∧
    (∀ (env : Env) client sid sheets name sc ec, ¬ sid = "" →
      env.getSpreadsheet sid = .ok sheets → findSheetId sheets name = none →
      (columns_hide env client name sc ec (some sid)).result =
          .error (.valueError (sheetNotFoundMsg name)) ∧
        (columns_hide env client name sc ec (some sid)).calls.filter
          NetCall.isMutating = []) ∧
    (∀ (env : Env) client sid sheets name col w, ¬ sid = "" →
      env.getSpreadsheet sid = .ok sheets → findSheetId sheets name = none →
      (column_resize env client name col w (some sid)).result =
          .error (.valueError (sheetNotFoundMsg name)) ∧
        (column_resize env client name col w (some sid)).calls.filter
          NetCall.isMutating = []) ∧
    (∀ (env : Env) client sid sheets name sc ec, ¬ sid = "" →
      env.getSpreadsheet sid = .ok sheets → findSheetId sheets name = none →
      (columns_group env client name sc ec (some sid)).result =
          .error (.valueError (sheetNotFoundMsg name)) ∧
        (columns_group env client name sc ec (some sid)).calls.filter
          NetCall.isMutating = []) ∧
    (∀ (env : Env) client sid sheets r a, ¬ sid = "" →
      env.getSpreadsheet sid = .ok sheets →
      findSheetId sheets (sheetNameOf r) = none →
      (text_rotate env client r a (some sid)).result =
          .error (.valueError (sheetNotFoundMsg (sheetNameOf r))) ∧
        (text_rotate env client r a (some sid)).calls.filter
          NetCall.isMutating = []) ∧
    (∀ (env : Env) client sid sheets r ws, ¬ sid = "" →
      env.getSpreadsheet sid = .ok sheets →
      findSheetId sheets (sheetNameOf r) = none →
      (text_wrap env client r ws (some sid)).result =
          .error (.valueError (sheetNotFoundMsg (sheetNameOf r))) ∧
        (text_wrap env client r ws (some sid)).calls.filter
          NetCall.isMutating = []) ∧
    (∀ (env : Env) client sid sheets name new, ¬ sid = "" →
      env.getSpreadsheet sid = .ok sheets → findSheetId sheets name = none →
      (sheet_rename env client name new (some sid)).result =
          .error (.valueError (sheetNotFoundMsg name)) ∧
        (sheet_rename env client name new (some sid)).calls.filter
          NetCall.isMutating = []) ∧
    (∀ (env : Env) client sid sheets name, ¬ sid = "" →
      env.getSpreadsheet sid = .ok sheets → findSheetId sheets name = none →
      (sheet_hide env client name (some sid)).result =
          .error (.valueError (sheetNotFoundMsg name)) ∧
        (sheet_hide env client name (some sid)).calls.filter
          NetCall.isMutating = []) ∧
    (∀ (env : Env) client sid sheets name nr, ¬ sid = "" →
      env.getSpreadsheet sid = .ok sheets → findSheetId sheets name = none →
      (freeze_rows env client name nr (some sid)).result =
          .error (.valueError (sheetNotFoundMsg name)) ∧
        (freeze_rows env client name nr (some sid)).calls.filter
          NetCall.isMutating = []) := by
  refine ⟨?_, ?_, ?_, ?_, ?_, ?_, ?_, ?_, ?_, ?_, ?_, ?_, ?_, ?_, ?_, ?_,
    ?_, ?_, ?_, ?_⟩
  · intro sheets name
    induction sheets with
    | nil => rfl
    | cons s rest ih =>
      by_cases h : s.title = name <;>
        simp [findSheetId, List.find?_cons, h, ih]
  · intro env sid name
    simp only [get_sheet_id_by_name]
    split <;> rfl
  all_goals
    intros
    rename_i hsid henv hfind
    simp only [sheet_delete, sheet_duplicate, rows_insert, format_cells,
      filter_apply, conditional_format_add, validation_add, named_range_add,
      cells_merge, borders_update, columns_hide, column_resize, columns_group,
      text_rotate, text_wrap, sheet_rename, sheet_hide, freeze_rows,
      resolveId_some hsid, get_sheet_id_missing henv hfind]
    simp [NetCall.isMutating]

/-- Witness for the amended claim C2, at `sheet_delete` of the absent
sheet `Ghost` against the concrete test environment. -/
theorem claim_C2_sheet_not_found_no_mutation_witness :
    (¬ ("S1" : String) = "") ∧
    envTest.getSpreadsheet "S1" = .ok [{ title := "Data", sheetId := 3 }] ∧
    findSheetId [{ title := "Data", sheetId := 3 }] "Ghost" = none ∧
    ((sheet_delete envTest { current_spreadsheet_id := none } "Ghost"
        (some "S1")).result =
      .error (.valueError (sheetNotFoundMsg "Ghost")) ∧
    (sheet_delete envTest { current_spreadsheet_id := none } "Ghost"
        (some "S1")).calls = [NetCall.spreadsheetsGet "S1"] ∧
    (sheet_delete envTest { current_spreadsheet_id := none } "Ghost"
        (some "S1")).calls.filter NetCall.isMutating = []) :=
  ⟨by decide, rfl, rfl,
    claim_C2_sheet_not_found_no_mutation.2.2.1 envTest
      { current_spreadsheet_id := none } "S1"
      [{ title := "Data", sheetId := 3 }] "Ghost" (by decide) rfl rfl⟩

/-- Claim C5: each formatting / validation / merge / border / filter
family action that takes an A1 range argument substitutes a fixed
rectangular extent instead of parsing the caller-supplied A1 string.  Two
statements per action: the network calls depend on the range argument
only through its sheet-name prefix (for `filter_apply`, not at all), and
under successful resolution the one batch request carries the fixed
extent — rows 0..99 and columns 0..25 for `format_cells`,
`validation_add`, `conditional_format_add`, `named_range_add`,
`text_rotate` and `text_wrap`; rows 0..9, columns 0..4 for `cells_merge`
and `borders_update`; rows 0..999, columns 0..25 for `filter_apply`. -/
theorem claim_C5_fixed_extent_ignores_range :
    (∀ env client sp b i fs bg tc h v r1 r2, sheetNameOf r1 = sheetNameOf r2 →
      (format_cells env client r1 sp b i fs bg tc h v).calls =
        (format_cells env client r2 sp b i fs bg tc h v).calls) ∧
    (∀ (env : Env) client sid sheets r b i fs bg tc h v j cf, ¬ sid = "" →
      env.getSpreadsheet sid = .ok sheets →
      findSheetId sheets (sheetNameOf r) = some j →
      buildCellFormat b i fs bg tc h v = .ok cf →
      (format_cells env client r (some sid) b i fs bg tc h v).calls =
        [NetCall.spreadsheetsGet sid,
         NetCall.batchUpdate sid [.repeatCellFormat (defaultExtent j) cf]]) ∧
    (∀ env client sp vt vals mn mx r1 r2, sheetNameOf r1 = sheetNameOf r2 →
      (validation_add env client r1 vt vals mn mx sp).calls =
        (validation_add env client r2 vt vals mn mx sp).calls) ∧
    (∀ (env : Env) client sid sheets r vt vals mn mx j, ¬ sid = "" →
      env.getSpreadsheet sid = .ok sheets →
      findSheetId sheets (sheetNameOf r) = some j →
      (validation_add env client r vt vals mn mx (some sid)).calls =
        [NetCall.spreadsheetsGet sid,
         NetCall.batchUpdate sid [.setDataValidation (defaultExtent j) vt
           (validationValues vt vals mn mx) true true]]) ∧
    (∀ env client sp rt cv r1 r2, sheetNameOf r1 = sheetNameOf r2 →
      (conditional_format_add env client r1 rt cv sp).calls =
        (conditional_format_add env client r2 rt cv sp).calls) ∧
    (∀ (env : Env) client sid sheets r rt cv j, ¬ sid = "" →
      env.getSpreadsheet sid = .ok sheets →
      findSheetId sheets (sheetNameOf r) = some j →
      (conditional_format_add env client r rt cv (some sid)).calls =
        [NetCall.spreadsheetsGet sid,
         NetCall.batchUpdate sid
           [.addConditionalFormatRule [defaultExtent j] rt cv 0]]) ∧
    (∀ env client sp mt r1 r2, sheetNameOf r1 = sheetNameOf r2 →
      (cells_merge env client r1 mt sp).calls =
        (cells_merge env client r2 mt sp).calls) ∧
    (∀ (env : Env) client sid sheets r mt j, ¬ sid = "" →
      env.getSpreadsheet sid = .ok sheets →
      findSheetId sheets (sheetNameOf r) = some j →
      (cells_merge env client r mt (some sid)).calls =
        [NetCall.spreadsheetsGet sid,
         NetCall.batchUpdate sid [.mergeCells
           { sheetId := j, startRowIndex := 0, endRowIndex := 10,
             startColumnIndex := 0, endColumnIndex := 5 } mt]]) ∧
    (∀ env client sp bs bw bc r1 r2, sheetNameOf r1 = sheetNameOf r2 →
      (borders_update env client r1 bs bw bc sp).calls =
        (borders_update env client r2 bs bw bc sp).calls) ∧
    (∀ (env : Env) client sid sheets r bs bw bc j col, ¬ sid = "" →
      env.getSpreadsheet sid = .ok sheets →
      findSheetId sheets (sheetNameOf r) = some j →
      hexToColor bc = some col →
      (borders_update env client r bs bw bc (some sid)).calls =
        [NetCall.spreadsheetsGet sid,
         NetCall.batchUpdate sid [.updateBorders
           { sheetId := j, startRowIndex := 0, endRowIndex := 10,
             startColumnIndex := 0, endColumnIndex := 5 }
           { style := bs, width := bw, color := col }]]) ∧
    (∀ env client sn fr1 fr2 sp,
      (filter_apply env client sn fr1 sp).calls =
        (filter_apply env client sn fr2 sp).calls) ∧
    (∀ (env : Env) client sid sheets sn fr j, ¬ sid = "" →
      env.getSpreadsheet sid = .ok sheets →
      findSheetId sheets sn = some j →
      (filter_apply env client sn fr (some sid)).calls =
        [NetCall.spreadsheetsGet sid,
         NetCall.batchUpdate sid [.setBasicFilter
           { sheetId := j, startRowIndex := 0, endRowIndex := 1000,
             startColumnIndex := 0, endColumnIndex := 26 }]]) ∧
    (∀ env client nm sp r1 r2, sheetNameOf r1 = sheetNameOf r2 →
      (named_range_add env client nm r1 sp).calls =
        (named_range_add env client nm r2 sp).calls) ∧
    (∀ (env : Env) client sid sheets nm r j, ¬ sid = "" →
      env.getSpreadsheet sid = .ok sheets →
      findSheetId sheets (sheetNameOf r) = some j →
      (named_range_add env client nm r (some sid)).calls =
        [NetCall.spreadsheetsGet sid,
         NetCall.batchUpdate sid [.addNamedRange nm (defaultExtent j)]]) ∧
    (∀ env client a sp r1 r2, sheetNameOf r1 = sheetNameOf r2 →
      (text_rotate env client r1 a sp).calls =
        (text_rotate env client r2 a sp).calls) ∧
    (∀ (env : Env) client sid sheets r a j, ¬ sid = "" →
      env.getSpreadsheet sid = .ok sheets →
      findSheetId sheets (sheetNameOf r) = some j →
      (text_rotate env client r a (some sid)).calls =
        [NetCall.spreadsheetsGet sid,
         NetCall.batchUpdate sid [.repeatCellTextRotation (defaultExtent j) a]]) ∧
    (∀ env client ws sp r1 r2, sheetNameOf r1 = sheetNameOf r2 →
      (text_wrap env client r1 ws sp).calls =
        (text_wrap env client r2 ws sp).calls) ∧
    (∀ (env : Env) client sid sheets r ws j, ¬ sid = "" →
      env.getSpreadsheet sid = .ok sheets →
      findSheetId sheets (sheetNameOf r) = some j →
      (text_wrap env client r ws (some sid)).calls =
        [NetCall.spreadsheetsGet sid,
         NetCall.batchUpdate sid [.repeatCellWrapStrategy (defaultExtent j) ws]]) := by
  refine ⟨?_, ?_, ?_, ?_, ?_, ?_, ?_, ?_, ?_, ?_, ?_, ?_, ?_, ?_, ?_, ?_,
    ?_, ?_⟩
  · intros
    rename_i r1 r2 hpre
    simp only [format_cells]
    rw [hpre]
    repeat first
      | rfl
      | split
      | dsimp only
  · intros env client sid sheets r b i fs bg tc h v j cf hsid henv hfind hfmt
    simp only [format_cells, resolveId_some hsid, get_sheet_id_found henv hfind,
      hfmt]
    repeat first
      | rfl
      | split
      | dsimp only
  · intros
    rename_i r1 r2 hpre
    simp only [validation_add]
    rw [hpre]
    repeat first
      | rfl
      | split
      | dsimp only
  · intros env client sid sheets r vt vals mn mx j hsid henv hfind
    simp only [validation_add, resolveId_some hsid, get_sheet_id_found henv hfind]
    repeat first
      | rfl
      | split
      | dsimp only
  · intros
    rename_i r1 r2 hpre
    simp only [conditional_format_add]
    rw [hpre]
    repeat first
      | rfl
      | split
      | dsimp only
  · intros env client sid sheets r rt cv j hsid henv hfind
    simp only [conditional_format_add, resolveId_some hsid,
      get_sheet_id_found henv hfind]
    repeat first
      | rfl
      | split
      | dsimp only
  · intros
    rename_i r1 r2 hpre
    simp only [cells_merge]
    rw [hpre]
    repeat first
      | rfl
      | split
      | dsimp only
  · intros env client sid sheets r mt j hsid henv hfind
    simp only [cells_merge, resolveId_some hsid, get_sheet_id_found henv hfind]
    repeat first
      | rfl
      | split
      | dsimp only
  · intros
    rename_i r1 r2 hpre
    simp only [borders_update]
    rw [hpre]
    repeat first
      | rfl
      | split
      | dsimp only
  · intros env client sid sheets r bs bw bc j col hsid henv hfind hhex
    simp only [borders_update, resolveId_some hsid, get_sheet_id_found henv hfind,
      hhex]
    repeat first
      | rfl
      | split
      | dsimp only
  · intros env client sn fr1 fr2 sp
    simp only [filter_apply]
    repeat first
      | rfl
      | split
      | dsimp only
  · intros env client sid sheets sn fr j hsid henv hfind
    simp only [filter_apply, resolveId_some hsid, get_sheet_id_found henv hfind]
    repeat first
      | rfl
      | split
      | dsimp only
  · intros
    rename_i r1 r2 hpre
    simp only [named_range_add]
    rw [hpre]
    repeat first
      | rfl
      | split
      | dsimp only
  · intros env client sid sheets nm r j hsid henv hfind
    simp only [named_range_add, resolveId_some hsid, get_sheet_id_found henv hfind]
    repeat first
      | rfl
      | split
      | dsimp only
  · intros
    rename_i r1 r2 hpre
    simp only [text_rotate]
    rw [hpre]
    repeat first
      | rfl
      | split
      | dsimp only
  · intros env client sid sheets r a j hsid henv hfind
    simp only [text_rotate, resolveId_some hsid, get_sheet_id_found henv hfind]
    repeat first
      | rfl
      | split
      | dsimp only
  · intros
    rename_i r1 r2 hpre
    simp only [text_wrap]
    rw [hpre]
    repeat first
      | rfl
      | split
      | dsimp only
  · intros env client sid sheets r ws j hsid henv hfind
    simp only [text_wrap, resolveId_some hsid, get_sheet_id_found henv hfind]
    repeat first
      | rfl
      | split
      | dsimp only

/-- Witness for claim C5: `format_cells` against the concrete test
environment, with two ranges sharing the sheet prefix `Data` and a
bold-only format. -/
theorem claim_C5_fixed_extent_ignores_range_witness :
    sheetNameOf "Data!A1:B2" = sheetNameOf "Data!C3:Z50" ∧
    (format_cells envTest { current_spreadsheet_id := none } "Data!A1:B2"
        (some "S1") (some true) none none none none none none).calls =
      (format_cells envTest { current_spreadsheet_id := none } "Data!C3:Z50"
        (some "S1") (some true) none none none none none none).calls ∧
    (format_cells envTest { current_spreadsheet_id := none } "Data!A1:B2"
        (some "S1") (some true) none none none none none none).calls =
      [NetCall.spreadsheetsGet "S1",
       NetCall.batchUpdate "S1" [.repeatCellFormat (defaultExtent 3)
         { textFormat := some { bold := some true } }]] :=
  ⟨by decide,
    claim_C5_fixed_extent_ignores_range.1 envTest
      { current_spreadsheet_id := none } (some "S1") (some true) none none
      none none none none "Data!A1:B2" "Data!C3:Z50" (by decide),
    claim_C5_fixed_extent_ignores_range.2.1 envTest
      { current_spreadsheet_id := none } "S1"
      [{ title := "Data", sheetId := 3 }] "Data!A1:B2" (some true) none none
      none none none none 3 { textFormat := some { bold := some true } }
      (by decide) rfl (by decide) rfl⟩

/-- A failing metadata read is caught inside `get_sheet_id_by_name` and
turned into `none` (shared helper). -/
theorem get_sheet_id_suppressed {env : Env} {sid name : String} {e : HttpErr}
    (h : env.getSpreadsheet sid = .error e) :
    get_sheet_id_by_name env sid name = (none, [.spreadsheetsGet sid]) := by
  simp [get_sheet_id_by_name, h]

/-- Claim C6: when a persisted token exists and deserialises to a valid
credential, `authenticate` performs zero interactive-consent steps and
zero refresh calls: it reads the token file and builds the two service
handles, nothing else. -/
theorem claim_C6_valid_token_no_reauth :
    ∀ (env : AuthEnv) (c : Creds), env.tokenFile = some c → c.valid = true →
      authenticate env = (.ok true,
        [.readTokenFile, .buildService "sheets", .buildService "drive"]) ∧
      AuthEvent.refreshCall ∉ (authenticate env).2 ∧
      AuthEvent.consentFlow ∉ (authenticate env).2 := by
  intro env c htf hv
  have h1 : authenticate env = (.ok true,
      [.readTokenFile, .buildService "sheets", .buildService "drive"]) := by
    simp [authenticate, htf, hv]
  refine ⟨h1, ?_, ?_⟩ <;> rw [h1] <;> decide

/-- Witness for claim C6, at the concrete valid-token environment. -/
theorem claim_C6_valid_token_no_reauth_witness :
    authEnvValidToken.tokenFile =
      some { valid := true, expired := false, has_refresh_token := true } ∧
    (authenticate authEnvValidToken = (.ok true,
        [.readTokenFile, .buildService "sheets", .buildService "drive"]) ∧
      AuthEvent.refreshCall ∉ (authenticate authEnvValidToken).2 ∧
      AuthEvent.consentFlow ∉ (authenticate authEnvValidToken).2) :=
  ⟨rfl, claim_C6_valid_token_no_reauth authEnvValidToken
    { valid := true, expired := false, has_refresh_token := true } rfl rfl⟩

/-- Claim C7: with `GOOGLE_OAUTH_PATH` unset, startup exits with status 1
and diagnostics on stderr instead of running the server, and inside
`authenticate` the missing path raises the configuration `ValueError`
before any consent-flow call is attempted (no `consentFlow` event ever
appears in the trace of an environment without the path). -/
theorem claim_C7_missing_oauth_path_fails_fast :
    main none = .exited 1
      ["Error: GOOGLE_OAUTH_PATH environment variable not set",
       "Please set it to your Google OAuth credentials JSON file path"] ∧
    main none ≠ .serverRun ∧
    (∀ env : AuthEnv, env.googleOauthPath = none →
      AuthEvent.consentFlow ∉ (authenticate env).2) ∧
    (∀ env : AuthEnv, env.googleOauthPath = none → env.tokenFile = none →
      authenticate env = (.error (.valueError oauthPathMsg), [])) := by
  refine ⟨rfl, by decide, ?_, ?_⟩
  · intro env h
    cases htf : env.tokenFile with
    | none => simp [authenticate, authenticateConsent, htf, h, truthy]
    | some c =>
      by_cases hv : c.valid
      · simp [authenticate, htf, hv]
      · by_cases he : c.expired && c.has_refresh_token
        · cases hr : env.refreshOutcome c with
          | ok c2 => simp [authenticate, htf, hv, he, hr]
          | error e => simp [authenticate, htf, hv, he, hr]
        · simp [authenticate, authenticateConsent, htf, hv, he, h, truthy]
  · intro env h htf
    simp [authenticate, authenticateConsent, htf, h, truthy]

/-- Witness for claim C7, at the concrete unconfigured environment. -/
theorem claim_C7_missing_oauth_path_fails_fast_witness :
    authEnvNoConfig.googleOauthPath = none ∧
    authEnvNoConfig.tokenFile = none ∧
    authenticate authEnvNoConfig = (.error (.valueError oauthPathMsg), []) :=
  ⟨rfl, rfl,
    claim_C7_missing_oauth_path_fails_fast.2.2.2 authEnvNoConfig rfl rfl⟩

/-- Counterexample for claim C8: `get_sheet_id_by_name` is a second
catch-and-suppress site.  When the metadata read fails with an HTTP 500,
the error is swallowed (the function returns `none`), and `sheet_delete`
reports the local "Sheet not found" `ValueError` instead of propagating
the remote error verbatim. -/
theorem claim_C8_counterexample_metadata_error_suppressed :
    envHttpFail.getSpreadsheet "S1" =
      .error (HttpErr.mk 500 "Internal backend error") ∧
    get_sheet_id_by_name envHttpFail "S1" "Data" =
      (none, [NetCall.spreadsheetsGet "S1"]) ∧
    (sheet_delete envHttpFail { current_spreadsheet_id := none } "Data"
        (some "S1")).result =
      .error (.valueError (sheetNotFoundMsg "Data")) ∧
    (sheet_delete envHttpFail { current_spreadsheet_id := none } "Data"
        (some "S1")).result ≠
      .error (.httpError (HttpErr.mk 500 "Internal backend error")) := by
  refine ⟨rfl, rfl, rfl, ?_⟩
  intro h
  rw [show (sheet_delete envHttpFail { current_spreadsheet_id := none } "Data"
      (some "S1")).result =
    .error (.valueError (sheetNotFoundMsg "Data")) from rfl] at h
  injection h with h2
  exact PyErr.noConfusion h2

/-- Claim C8 (amended): there are exactly two catch-and-suppress sites:
the best-effort sheet-creation attempt inside `csv_import` (whose
`batchUpdate` outcome never influences the action's result), and
`get_sheet_id_by_name`, which catches an `HttpError` from its metadata
read and returns `None` (callers then report a local "Sheet not found"
error instead).  Remote failures at every other call site propagate to
the action boundary verbatim, sampled here across the three call shapes:
a batch mutation (`sheet_delete`), a value write (`values_update`) and a
value read (`values_get`). -/
theorem claim_C8_suppression_sites :
    (∀ (env : Env) sid name e, env.getSpreadsheet sid = .error e →
      get_sheet_id_by_name env sid name =
        (none, [NetCall.spreadsheetsGet sid])) ∧
    (∀ (env : Env) client rd d sn sp b1 b2,
      (csv_import { env with batchUpdate := b1 } client rd d sn sp).result =
        (csv_import { env with batchUpdate := b2 } client rd d sn sp).result) ∧
    (∀ (env : Env) client sid sheets name i e, ¬ sid = "" →
      env.getSpreadsheet sid = .ok sheets → findSheetId sheets name = some i →
      env.batchUpdate sid [.deleteSheet i] = .error e →
      (sheet_delete env client name (some sid)).result =
        .error (.httpError e)) ∧
    (∀ (env : Env) client r vals vio sid e, ¬ sid = "" →
      env.valuesUpdate sid r vio vals = .error e →
      (values_update env client r vals (some sid) vio).result =
        .error (.httpError e)) ∧
    (∀ (env : Env) client r vro sid e, ¬ sid = "" →
      env.valuesGet sid r vro = .error e →
      (values_get env client r (some sid) vro).result =
        .error (.httpError e)) := by
  refine ⟨?_, ?_, ?_, ?_, ?_⟩
  · intro env sid name e h
    simp [get_sheet_id_by_name, h]
  · intro env client rd d sn sp b1 b2
    simp only [csv_import, get_sheet_id_by_name]
  · intro env client sid sheets name i e hsid henv hfind hbu
    simp only [sheet_delete, resolveId_some hsid,
      get_sheet_id_found henv hfind, hbu]
  · intro env client r vals vio sid e hsid hvu
    simp only [values_update, resolveId_some hsid, hvu]
  · intro env client r vro sid e hsid hvg
    simp only [values_get, resolveId_some hsid, hvg]

/-- Witness for the amended claim C8, at the concrete failing-metadata
environment. -/
theorem claim_C8_suppression_sites_witness :
    envHttpFail.getSpreadsheet "S1" =
      .error (HttpErr.mk 500 "Internal backend error") ∧
    get_sheet_id_by_name envHttpFail "S1" "Data" =
      (none, [NetCall.spreadsheetsGet "S1"]) :=
  ⟨rfl, claim_C8_suppression_sites.1 envHttpFail "S1" "Data"
    (HttpErr.mk 500 "Internal backend error") rfl⟩

/-- Claim C9: `spreadsheet_create` invoked with title `T1` and sheets
`[A, B]`: for every successful remote response carrying a non-empty
identifier, the returned record holds that identifier, the input title
and the input sheet list. -/
theorem claim_C9_create_result_echoes_inputs :
    ∀ (env : Env) client resp,
      env.createSpreadsheet "T1" ["A", "B"] = .ok resp →
      ¬ resp.spreadsheetId = "" →
      ∃ info : SpreadsheetInfo,
        (spreadsheet_create env client "T1" ["A", "B"]).result = .ok info ∧
        info.spreadsheet_id = resp.spreadsheetId ∧
        info.spreadsheet_id ≠ "" ∧
        info.title = "T1" ∧
        info.sheets = ["A", "B"] := by
  intro env client resp h hne
  refine ⟨⟨resp.spreadsheetId, "T1", resp.spreadsheetUrl.getD "", ["A", "B"]⟩,
    ?_, rfl, hne, rfl, rfl⟩
  simp [spreadsheet_create, h]

/-- Witness for claim C9, at the concrete test environment. -/
theorem claim_C9_create_result_echoes_inputs_witness :
    envTest.createSpreadsheet "T1" ["A", "B"] =
      .ok { spreadsheetId := "NEWID123", spreadsheetUrl := some "url" } ∧
    ∃ info : SpreadsheetInfo,
      (spreadsheet_create envTest { current_spreadsheet_id := none }
          "T1" ["A", "B"]).result = .ok info ∧
      info.spreadsheet_id = "NEWID123" ∧
      info.spreadsheet_id ≠ "" ∧
      info.title = "T1" ∧
      info.sheets = ["A", "B"] :=
  ⟨rfl, claim_C9_create_result_echoes_inputs envTest
    { current_spreadsheet_id := none }
    { spreadsheetId := "NEWID123", spreadsheetUrl := some "url" }
    rfl (by decide)⟩

/-- Claim C10: when the metadata read inside sheet-name resolution fails
with a remote HTTP error, `get_sheet_id_by_name` catches it and returns
`None`, so calling actions (`sheet_delete`, `sheet_duplicate`,
`rows_insert`) report the local "Sheet not found" error instead of
propagating the original remote status and message. -/
theorem claim_C10_metadata_failure_masked_as_not_found :
    ∀ (env : Env) client sid name new si nr e, ¬ sid = "" →
      env.getSpreadsheet sid = .error e →
      get_sheet_id_by_name env sid name =
          (none, [NetCall.spreadsheetsGet sid]) ∧
      (sheet_delete env client name (some sid)).result =
          .error (.valueError (sheetNotFoundMsg name)) ∧
      (sheet_duplicate env client name new (some sid)).result =
          .error (.valueError (sheetNotFoundMsg name)) ∧
      (rows_insert env client name si nr (some sid)).result =
          .error (.valueError (sheetNotFoundMsg name)) := by
  intro env client sid name new si nr e hsid herr
  refine ⟨get_sheet_id_suppressed herr, ?_, ?_, ?_⟩ <;>
    simp only [sheet_delete, sheet_duplicate, rows_insert,
      resolveId_some hsid, get_sheet_id_suppressed herr]

/-- Witness for claim C10, at the concrete failing-metadata
environment. -/
theorem claim_C10_metadata_failure_masked_as_not_found_witness :
    (¬ ("S1" : String) = "") ∧
    envHttpFail.getSpreadsheet "S1" =
      .error (HttpErr.mk 500 "Internal backend error") ∧
    ((sheet_delete envHttpFail { current_spreadsheet_id := none } "Data"
        (some "S1")).result =
      .error (.valueError (sheetNotFoundMsg "Data"))) :=
  ⟨by decide, rfl,
    (claim_C10_metadata_failure_masked_as_not_found envHttpFail
      { current_spreadsheet_id := none } "S1" "Data" "Copy" 0 1
      (HttpErr.mk 500 "Internal backend error") (by decide) rfl).2.1⟩

end Docugen
